import Mathlib

/-!
The script script.js: theme, animation trigger and area calculator

A shallow embedding of the functions of `src/script.js` that hold logic:
`initializeTheme`, `getSystemTheme`, `setTheme`, `toggleTheme`,
`triggerAnimation`, `getAnimationDuration`, `calculateArea`, `displayResult`.

Conventions of the embedding.

* The script's two globals and the parts of the page it reads or writes are the
  fields of `State`. The elements the script looks up by id are the ones the
  page provides, so a lookup always finds its element.
* A function containing a DOM call that can throw returns a `Completion`: the
  state the call left behind together with either a value or the exception.
* `setTimeout(f, d)` appends a `Timer` to `State.timers`; `console.log` appends a
  line to `State.console`.
* The conversion of a number to a string inside a template literal is a
  parameter, `numberToString`, of the functions that build such a text.
* JavaScript numbers are `JSNumber`: NaN, the two infinities, or a finite value
  kept as the exact rational it denotes (no rounding to 53 bits, `-0` is `0`).
  Literals and products beyond the range of a double are not rounded either.
  The global counter is a natural number with the increment of a double, which
  is exact below `2 ^ 53` and stays put there.
* `localStorage` is an association list; it is always available and never runs
  out of room.
-/

set_option autoImplicit false

namespace Script

/-! ## Host values -/

/-- The exceptions a DOM token list raises. -/
inductive JSError
  | domSyntaxError
  | domInvalidCharacterError
deriving DecidableEq, Repr

/-- What a call produced: a value, or the exception it threw. -/
inductive Outcome (α : Type)
  | ok (value : α)
  | throw (error : JSError)
deriving DecidableEq, Repr

/-- The elements of the page that the embedded functions touch. -/
inductive Element
  | themeToggle
  | animationBox
  | result
deriving DecidableEq, Repr

/-- The body of a callback handed to `setTimeout`. -/
inductive TimerAction
  | removeClass (target : Element) (token : String)
deriving DecidableEq, Repr

/-- A pending `setTimeout`: the delay in milliseconds and what runs then. -/
structure Timer where
  delay : Nat
  action : TimerAction
deriving DecidableEq, Repr

/-- The script's globals together with the page state it reads and writes. -/
structure State where
  /-- The global `currentTheme` (line 2). -/
  currentTheme : String
  /-- The global `animationCount` (line 3). -/
  animationCount : Nat
  /-- The entries of `localStorage`, first match wins. -/
  localStorage : List (String × String)
  /-- The `data-theme` attribute of `document.body`. -/
  bodyDataTheme : Option String
  /-- The `textContent` of `#theme-toggle`. -/
  themeToggleText : String
  /-- The class tokens of `#theme-toggle`. -/
  themeToggleClass : List String
  /-- The class tokens of `#animation-box`. -/
  animationBoxClass : List String
  /-- The `value` of the input `#width`. -/
  widthValue : String
  /-- The `value` of the input `#height`. -/
  heightValue : String
  /-- The `textContent` of `#result`. -/
  resultText : String
  /-- The class tokens of `#result`. -/
  resultClass : List String
  /-- The callbacks scheduled with `setTimeout`, oldest first. -/
  timers : List Timer
  /-- The lines written with `console.log`, oldest first. -/
  console : List String
deriving DecidableEq, Repr

/-- The state after a call and what the call produced. -/
structure Completion (α : Type) where
  state : State
  outcome : Outcome α

/-! ## localStorage -/

/-- The call `localStorage.getItem(key)`: `none` is JavaScript's `null`. -/
def getItem : List (String × String) → String → Option String
  | [], _ => none
  | (k, v) :: rest, key => if k = key then some v else getItem rest key

/-- The call `localStorage.setItem(key, value)`: overwrite the entry, or add one. -/
def setItem : List (String × String) → String → String → List (String × String)
  | [], key, value => [(key, value)]
  | (k, v) :: rest, key, value =>
    if k = key then (k, value) :: rest else (k, v) :: setItem rest key value

/-! ## DOM token lists -/

/-- ASCII whitespace of the DOM standard: TAB, LF, FF, CR and SPACE. -/
def isAsciiWhitespace (c : Char) : Bool :=
  c.toNat = 9 || c.toNat = 10 || c.toNat = 12 || c.toNat = 13 || c.toNat = 32

/-- The call `classList.add(token)` on an element whose class tokens are `tokens`:
an empty token and a token with whitespace in it throw; otherwise the token joins
the set unless it is already a member. -/
def classListAdd (token : String) (tokens : List String) : Outcome (List String) :=
  if token.data = [] then .throw .domSyntaxError
  else if token.data.any isAsciiWhitespace then .throw .domInvalidCharacterError
  else if token ∈ tokens then .ok tokens
  else .ok (tokens ++ [token])

/-! ## Theme management (lines 27-82) -/

/-- Lines 39-43; `isDark` is `window.matchMedia("(prefers-color-scheme: dark)").matches`. -/
def getSystemTheme (isDark : Bool) : String :=
  if isDark then "dark" else "light"

/-- Lines 49-68. -/
def setTheme (theme : String) (s : State) : State :=
  { s with
    currentTheme := theme
    bodyDataTheme := some theme
    localStorage := setItem s.localStorage "theme" theme
    themeToggleText := if theme = "light" then "🌙 Dark Mode" else "☀️ Light Mode"
    console := s.console ++ ["Theme changed to: " ++ theme] }

/-- The expression `localStorage.getItem("theme") || getSystemTheme()` of line 31:
`null` and the empty string are falsy, every other string is truthy. -/
def savedTheme (isDark : Bool) (s : State) : String :=
  match getItem s.localStorage "theme" with
  | none => getSystemTheme isDark
  | some v => if v.data = [] then getSystemTheme isDark else v

/-- Lines 30-33. -/
def initializeTheme (isDark : Bool) (s : State) : State :=
  setTheme (savedTheme isDark s) s

/-- Lines 74-82. -/
def toggleTheme (s : State) : Completion Unit :=
  let newTheme := if s.currentTheme = "light" then "dark" else "light"
  let s1 := setTheme newTheme s
  match classListAdd "animate-pulse" s1.themeToggleClass with
  | .throw e => ⟨s1, .throw e⟩
  | .ok tokens =>
    ⟨{ s1 with
       themeToggleClass := tokens
       timers := s1.timers ++ [⟨1000, .removeClass .themeToggle "animate-pulse"⟩] },
     .ok ()⟩

/-- A page just loaded: the globals as lines 2-3 initialise them, the given
storage and field texts, and nothing yet written to the page. -/
def loadedPage (storage : List (String × String)) (width height : String) : State :=
  { currentTheme := "light"
    animationCount := 0
    localStorage := storage
    bodyDataTheme := none
    themeToggleText := ""
    themeToggleClass := []
    animationBoxClass := ["animation-box"]
    widthValue := width
    heightValue := height
    resultText := ""
    resultClass := []
    timers := []
    console := [] }

/-! ## Animation trigger (lines 165-212) -/

/-- Lines 190-212. -/
def getAnimationDuration (animationType : String) : Nat :=
  if animationType = "slide" then 800
  else if animationType = "rotate" then 1500
  else if animationType = "pulse" then 1000
  else if animationType = "colorChange" then 3000
  else 1000

/-- The statement `animationCount++` of line 175 on a double holding a natural
number: exact below `2 ^ 53`, and `2 ^ 53 + 1` rounds back to `2 ^ 53`, so a
counter that starts at 0 never gets past `2 ^ 53`. -/
def numberIncrement (n : Nat) : Nat :=
  if n < 2 ^ 53 then n + 1 else n

/-- Lines 165-183. -/
def triggerAnimation (animationType : String) (s : State) : Completion Unit :=
  let s1 := { s with animationBoxClass := ["animation-box"] }
  match classListAdd ("animate-" ++ animationType) s1.animationBoxClass with
  | .throw e => ⟨s1, .throw e⟩
  | .ok tokens =>
    let s2 := { s1 with
      animationBoxClass := tokens
      animationCount := numberIncrement s1.animationCount }
    let s3 := { s2 with
      console := s2.console ++
        ["Animation #" ++ toString s2.animationCount ++ ": " ++ animationType] }
    let animationDuration := getAnimationDuration animationType
    ⟨{ s3 with
       timers := s3.timers ++
         [⟨animationDuration, .removeClass .animationBox ("animate-" ++ animationType)⟩] },
     .ok ()⟩

/-- The state after triggering the animations of `kinds` one after the other. -/
def triggerAnimations : List String → State → State
  | [], s => s
  | k :: rest, s => triggerAnimations rest (triggerAnimation k s).state

/-! ## Numbers -/

namespace JSNumber

end JSNumber

/-! ## parseFloat -/

theorem getItem_setItem_self (l : List (String × String)) (key value : String) :
    getItem (setItem l key value) key = some value := by
  induction l with
  | nil => simp [setItem, getItem]
  | cons e rest ih =>
    obtain ⟨k, v⟩ := e
    by_cases hk : k = key
    · simp [setItem, getItem, hk]
    · simp [setItem, getItem, hk, ih]

theorem setTheme_currentTheme (theme : String) (s : State) :
    (setTheme theme s).currentTheme = theme := rfl

theorem setTheme_stored (theme : String) (s : State) :
    getItem (setTheme theme s).localStorage "theme" = some theme :=
  getItem_setItem_self s.localStorage "theme" theme

theorem classListAdd_constant_ok (token : String) (tokens : List String)
    (hne : token.data ≠ []) (hws : token.data.any isAsciiWhitespace = false) :
    ∃ r, classListAdd token tokens = .ok r := by
  unfold classListAdd
  rw [if_neg hne, hws]
  by_cases hm : token ∈ tokens
  · exact ⟨tokens, by simp [hm]⟩
  · exact ⟨tokens ++ [token], by simp [hm]⟩

theorem toggleTheme_outcome (s : State) : (toggleTheme s).outcome = .ok () := by
  obtain ⟨r, hr⟩ := classListAdd_constant_ok "animate-pulse"
    (setTheme (if s.currentTheme = "light" then "dark" else "light") s).themeToggleClass
    (by decide) (by decide)
  simp only [toggleTheme, hr]

theorem toggleTheme_currentTheme (s : State) :
    (toggleTheme s).state.currentTheme = if s.currentTheme = "light" then "dark" else "light" := by
  obtain ⟨r, hr⟩ := classListAdd_constant_ok "animate-pulse"
    (setTheme (if s.currentTheme = "light" then "dark" else "light") s).themeToggleClass
    (by decide) (by decide)
  simp only [toggleTheme, hr]
  rfl

theorem toggleTheme_stored (s : State) :
    getItem (toggleTheme s).state.localStorage "theme"
      = some (if s.currentTheme = "light" then "dark" else "light") := by
  obtain ⟨r, hr⟩ := classListAdd_constant_ok "animate-pulse"
    (setTheme (if s.currentTheme = "light" then "dark" else "light") s).themeToggleClass
    (by decide) (by decide)
  simp only [toggleTheme, hr]
  exact setTheme_stored _ s

theorem savedTheme_of_stored (isDark : Bool) (s : State) (v : String)
    (hs : getItem s.localStorage "theme" = some v) (hv : v ≠ "") :
    savedTheme isDark s = v := by
  have hd : v.data ≠ [] := fun h => hv (String.ext h)
  simp [savedTheme, hs, hd]

theorem animateToken_data (animationType : String) :
    ("animate-" ++ animationType).data = "animate-".data ++ animationType.data :=
  String.data_append _ _

theorem animateToken_whitespace (animationType : String) :
    ("animate-" ++ animationType).data.any isAsciiWhitespace
      = animationType.data.any isAsciiWhitespace := by
  rw [animateToken_data, List.any_append]
  have h : "animate-".data.any isAsciiWhitespace = false := by decide
  rw [h, Bool.false_or]

theorem animateToken_nonempty (animationType : String) :
    ("animate-" ++ animationType).data ≠ [] := by
  rw [animateToken_data]
  simp

theorem triggerAnimation_ok (animationType : String) (s : State)
    (hws : animationType.data.any isAsciiWhitespace = false) :
    (triggerAnimation animationType s).outcome = .ok ()
    ∧ (triggerAnimation animationType s).state.animationCount
        = numberIncrement s.animationCount
    ∧ (triggerAnimation animationType s).state.timers
        = s.timers ++ [⟨getAnimationDuration animationType,
            .removeClass .animationBox ("animate-" ++ animationType)⟩] := by
  obtain ⟨r, hr⟩ := classListAdd_constant_ok ("animate-" ++ animationType) ["animation-box"]
    (animateToken_nonempty animationType)
    (by rw [animateToken_whitespace]; exact hws)
  simp only [triggerAnimation, hr, and_self]

theorem triggerAnimation_throw (animationType : String) (s : State)
    (hws : animationType.data.any isAsciiWhitespace = true) :
    (triggerAnimation animationType s).outcome = .throw .domInvalidCharacterError
    ∧ (triggerAnimation animationType s).state.animationCount = s.animationCount := by
  have h : classListAdd ("animate-" ++ animationType) ["animation-box"]
      = .throw .domInvalidCharacterError := by
    unfold classListAdd
    rw [if_neg (animateToken_nonempty animationType), animateToken_whitespace, hws]
    rfl
  simp only [triggerAnimation, h, and_self]

theorem numberIncrement_ge (n : Nat) : n ≤ numberIncrement n := by
  unfold numberIncrement
  split <;> omega

theorem triggerAnimation_count_ge (animationType : String) (s : State) :
    s.animationCount ≤ (triggerAnimation animationType s).state.animationCount := by
  cases hws : animationType.data.any isAsciiWhitespace with
  | false =>
    rw [(triggerAnimation_ok animationType s hws).2.1]
    exact numberIncrement_ge _
  | true => rw [(triggerAnimation_throw animationType s hws).2]

theorem triggerAnimations_count_ge (kinds : List String) (s : State) :
    s.animationCount ≤ (triggerAnimations kinds s).animationCount := by
  induction kinds generalizing s with
  | nil => exact Nat.le_refl _
  | cons k rest ih => exact Nat.le_trans (triggerAnimation_count_ge k s) (ih _)

theorem triggerAnimations_count (kinds : List String) (s : State)
    (hws : ∀ k ∈ kinds, k.data.any isAsciiWhitespace = false)
    (hroom : s.animationCount + kinds.length ≤ 2 ^ 53) :
    (triggerAnimations kinds s).animationCount = s.animationCount + kinds.length := by
  induction kinds generalizing s with
  | nil => rfl
  | cons k rest ih =>
    have hk := (triggerAnimation_ok k s (hws k (List.mem_cons_self k rest))).2.1
    simp only [List.length_cons] at hroom
    have hinc : numberIncrement s.animationCount = s.animationCount + 1 := by
      unfold numberIncrement
      rw [if_pos (by omega)]
    have hrest := ih (triggerAnimation k s).state
      (fun k' hk' => hws k' (List.mem_cons_of_mem k hk')) (by rw [hk, hinc]; omega)
    simp only [triggerAnimations, List.length_cons]
    rw [hrest, hk, hinc]
    omega

/-- C1: from a current theme that is "light" or "dark", whatever the storage
holds, two calls of toggleTheme in a row complete normally and leave both
currentTheme and the stored "theme" entry equal to the theme they started from. -/
theorem toggleTheme_involution (s : State)
    (ht : s.currentTheme = "light" ∨ s.currentTheme = "dark") :
    (toggleTheme (toggleTheme s).state).state.currentTheme = s.currentTheme
    ∧ getItem (toggleTheme (toggleTheme s).state).state.localStorage "theme"
        = some s.currentTheme
    ∧ (toggleTheme s).outcome = .ok ()
    ∧ (toggleTheme (toggleTheme s).state).outcome = .ok () := by
  refine ⟨?_, ?_, toggleTheme_outcome _, toggleTheme_outcome _⟩
  · rw [toggleTheme_currentTheme, toggleTheme_currentTheme]
    rcases ht with h | h <;> simp [h]
  · rw [toggleTheme_stored, toggleTheme_currentTheme]
    rcases ht with h | h <;> simp [h]

theorem toggleTheme_involution_witness :
    (toggleTheme (toggleTheme (loadedPage [("theme", "dark")] "" "")).state).state.currentTheme
      = "light"
    ∧ getItem (toggleTheme (toggleTheme (loadedPage [("theme", "dark")] "" "")).state).state.localStorage
        "theme" = some "light" :=
  ⟨(toggleTheme_involution (loadedPage [("theme", "dark")] "" "") (Or.inl rfl)).1,
   (toggleTheme_involution (loadedPage [("theme", "dark")] "" "") (Or.inl rfl)).2.1⟩

/-- C2: when the storage entry "theme" holds "light" or "dark", initializeTheme
makes that value the current theme, and the state it produces is the same for
both values of the system prefers-dark signal. -/
theorem initializeTheme_stored (v : String) (isDark : Bool) (s : State)
    (hv : v = "light" ∨ v = "dark") (hs : getItem s.localStorage "theme" = some v) :
    (initializeTheme isDark s).currentTheme = v
    ∧ initializeTheme isDark s = initializeTheme (!isDark) s := by
  have hne : v ≠ "" := by rcases hv with h | h <;> simp [h]
  simp only [initializeTheme, savedTheme_of_stored _ s v hs hne, setTheme_currentTheme, and_self]

theorem initializeTheme_stored_witness :
    (initializeTheme false (loadedPage [("theme", "dark")] "" "")).currentTheme = "dark" :=
  (initializeTheme_stored "dark" false (loadedPage [("theme", "dark")] "" "")
    (Or.inr rfl) (by decide)).1

/-- C3: when the storage has no "theme" entry, initializeTheme sets the current
theme from the system signal: "dark" when it is true, "light" when it is false. -/
theorem initializeTheme_unset (isDark : Bool) (s : State)
    (hs : getItem s.localStorage "theme" = none) :
    (isDark = true → (initializeTheme isDark s).currentTheme = "dark")
    ∧ (isDark = false → (initializeTheme isDark s).currentTheme = "light") := by
  constructor <;> intro h <;> simp [initializeTheme, savedTheme, hs, getSystemTheme, h, setTheme]

theorem initializeTheme_unset_witness :
    (initializeTheme true (loadedPage [("lang", "en")] "" "")).currentTheme = "dark" :=
  (initializeTheme_unset true (loadedPage [("lang", "en")] "" "") (by decide)).1 rfl

/-- C4: for a theme "light" or "dark", any prior state and any system signal,
setTheme leaves the storage entry "theme" equal to the theme, and initializeTheme
run later on any state holding that storage (the same page or a fresh process)
yields that theme as the current theme. -/
theorem setTheme_persists (t : String) (s : State) (ht : t = "light" ∨ t = "dark") :
    getItem (setTheme t s).localStorage "theme" = some t
    ∧ ∀ (later : State) (isDark : Bool),
        later.localStorage = (setTheme t s).localStorage →
        (initializeTheme isDark later).currentTheme = t := by
  have hne : t ≠ "" := by rcases ht with h | h <;> simp [h]
  refine ⟨setTheme_stored t s, fun later isDark hl => ?_⟩
  have hs : getItem later.localStorage "theme" = some t := by rw [hl]; exact setTheme_stored t s
  simp only [initializeTheme, savedTheme_of_stored _ later t hs hne, setTheme_currentTheme]

theorem setTheme_persists_witness :
    getItem (setTheme "light" (loadedPage [("theme", "dark")] "" "")).localStorage "theme"
      = some "light"
    ∧ (initializeTheme true
        (loadedPage (setTheme "light" (loadedPage [("theme", "dark")] "" "")).localStorage "" "")
      ).currentTheme = "light" :=
  ⟨(setTheme_persists "light" (loadedPage [("theme", "dark")] "" "") (Or.inl rfl)).1,
   (setTheme_persists "light" (loadedPage [("theme", "dark")] "" "") (Or.inl rfl)).2
     (loadedPage (setTheme "light" (loadedPage [("theme", "dark")] "" "")).localStorage "" "")
     true rfl⟩

/-! ## Animation trigger -/

/-- C5: getAnimationDuration returns 800 for "slide", 1500 for "rotate" and
the default 1000 for every string other than "slide", "rotate", "pulse" and
"colorChange"; the duration is positive for every string; and it is the delay
with which triggerAnimation schedules its cleanup of the class it added. -/
theorem getAnimationDuration_values (animationType : String) :
    getAnimationDuration "slide" = 800
    ∧ getAnimationDuration "rotate" = 1500
    ∧ (animationType ≠ "slide" → animationType ≠ "rotate" → animationType ≠ "pulse" →
        animationType ≠ "colorChange" → getAnimationDuration animationType = 1000)
    ∧ 0 < getAnimationDuration animationType
    ∧ (∀ s : State, animationType.data.any isAsciiWhitespace = false →
        (triggerAnimation animationType s).state.timers
          = s.timers ++ [⟨getAnimationDuration animationType,
              .removeClass .animationBox ("animate-" ++ animationType)⟩]) := by
  refine ⟨by decide, by decide, ?_, ?_, fun s hws => (triggerAnimation_ok animationType s hws).2.2⟩
  · intro h1 h2 h3 h4
    simp [getAnimationDuration, h1, h2, h3, h4]
  · unfold getAnimationDuration
    repeat' split
    all_goals decide

theorem getAnimationDuration_values_witness :
    getAnimationDuration "unknown" = 1000
    ∧ (triggerAnimation "unknown" (loadedPage [] "" "")).state.timers
        = [⟨1000, .removeClass .animationBox "animate-unknown"⟩] :=
  ⟨(getAnimationDuration_values "unknown").2.2.1 (by decide) (by decide) (by decide) (by decide),
   (getAnimationDuration_values "unknown").2.2.2.2 (loadedPage [] "" "") (by decide)⟩

/-- C6, amended: for every animation kind without ASCII whitespace, known or
unknown, one call of triggerAnimation completes normally and increases
animationCount by exactly 1 while the count is below 2 ^ 53; hence for every list
of N such kinds that keeps the count within 2 ^ 53, after triggering them in
sequence animationCount is its initial value + N. For a kind with ASCII
whitespace in it the call throws before the increment and leaves the count as it
was. For every list of kinds whatever, the counter never decreases. -/
theorem triggerAnimation_counts (kinds : List String) (animationType : String) (s : State) :
    (animationType.data.any isAsciiWhitespace = false → s.animationCount < 2 ^ 53 →
      (triggerAnimation animationType s).outcome = .ok ()
      ∧ (triggerAnimation animationType s).state.animationCount = s.animationCount + 1)
    ∧ ((∀ k ∈ kinds, k.data.any isAsciiWhitespace = false) →
        s.animationCount + kinds.length ≤ 2 ^ 53 →
        (triggerAnimations kinds s).animationCount = s.animationCount + kinds.length)
    ∧ (animationType.data.any isAsciiWhitespace = true →
        (triggerAnimation animationType s).outcome = .throw .domInvalidCharacterError
        ∧ (triggerAnimation animationType s).state.animationCount = s.animationCount)
    ∧ s.animationCount ≤ (triggerAnimations kinds s).animationCount := by
  refine ⟨fun hws hlt => ⟨(triggerAnimation_ok animationType s hws).1, ?_⟩,
    triggerAnimations_count kinds s, triggerAnimation_throw animationType s,
    triggerAnimations_count_ge kinds s⟩
  rw [(triggerAnimation_ok animationType s hws).2.1]
  unfold numberIncrement
  rw [if_pos hlt]

theorem triggerAnimation_counts_witness :
    (triggerAnimation "bounce" (loadedPage [] "" "")).state.animationCount = 0 + 1
    ∧ (triggerAnimations ["slide", "unknown", "slide"] (loadedPage [] "" "")).animationCount
        = 0 + 3 :=
  ⟨((triggerAnimation_counts ["slide", "unknown", "slide"] "bounce" (loadedPage [] "" "")).1
      (by decide) (by decide)).2,
   (triggerAnimation_counts ["slide", "unknown", "slide"] "bounce" (loadedPage [] "" "")).2.1
      (by decide) (by decide)⟩

/-- C6 as stated fails: the kind "slide fast" makes classList.add throw, so the
call ends before the increment and animationCount stays 0 instead of becoming 1. -/
theorem triggerAnimation_counts_counterexample :
    (triggerAnimation "slide fast" (loadedPage [] "" "")).outcome
      = .throw .domInvalidCharacterError
    ∧ (triggerAnimation "slide fast" (loadedPage [] "" "")).state.animationCount = 0
    ∧ (triggerAnimations ["slide fast"] (loadedPage [] "" "")).animationCount
        ≠ (loadedPage [] "" "").animationCount + ["slide fast"].length := by
  decide

/-! ## Calculator -/

/-- C8, amended: when the current theme is any string other than "light" or
"dark", toggleTheme completes normally and sets the current theme, and the
stored "theme" entry, to "light". -/
theorem toggleTheme_invalid (s : State)
    (hl : s.currentTheme ≠ "light") (_hd : s.currentTheme ≠ "dark") :
    (toggleTheme s).outcome = .ok ()
    ∧ (toggleTheme s).state.currentTheme = "light"
    ∧ getItem (toggleTheme s).state.localStorage "theme" = some "light" := by
  refine ⟨toggleTheme_outcome s, ?_, ?_⟩
  · rw [toggleTheme_currentTheme, if_neg hl]
  · rw [toggleTheme_stored, if_neg hl]

theorem toggleTheme_invalid_witness :
    (toggleTheme (setTheme "blue" (loadedPage [] "" ""))).state.currentTheme = "light" :=
  (toggleTheme_invalid (setTheme "blue" (loadedPage [] "" "")) (by decide) (by decide)).2.1

/-- C8 as stated fails: with the stored value "blue" adopted as the current
theme, toggleTheme sets the current theme to "light", not to "dark". -/
theorem toggleTheme_invalid_counterexample :
    (initializeTheme false (loadedPage [("theme", "blue")] "" "")).currentTheme = "blue"
    ∧ (toggleTheme (initializeTheme false (loadedPage [("theme", "blue")] "" ""))
        ).state.currentTheme = "light"
    ∧ (toggleTheme (initializeTheme false (loadedPage [("theme", "blue")] "" ""))
        ).state.currentTheme ≠ "dark" := by
  decide

end Script
